import Mathlib

/-!
Shallow embedding of the prompt-propagation segmentation tools
(`batch_segment.py` and `single_segment.py`): coordinate conversion,
the interactive calibration loop, and the batch processing loop.

Python float values arising here are quotients of machine integers; they
are modelled exactly as unreduced integer fractions (`Frac`).  numpy's
`astype(int)` truncates toward zero and is modelled by `Int.tdiv`.
-/

namespace FlyWing

/-- An absolute pixel coordinate, as stored in `click_points` (integers). -/
structure Point where
  x : Int
  y : Int
deriving DecidableEq, Repr

/-- An exact unreduced fraction `num / den`: the model of the float values
produced by the per-axis divisions and multiplications of the code. -/
structure Frac where
  num : Int
  den : Int
deriving DecidableEq, Repr

/-- Truncation toward zero, the semantics of numpy `astype(int)` on a float. -/
def Frac.trunc (f : Frac) : Int :=
  Int.tdiv f.num f.den

/-- Multiply a fraction by an integer (numpy broadcast `relative * [w, h]`). -/
def Frac.mulInt (f : Frac) (n : Int) : Frac :=
  ⟨f.num * n, f.den⟩

/-- Rounding to the nearest integer (half rounds up):
`(2*num + den) / (2*den)` with floor division equals `⌊num/den + 1/2⌋`. -/
def Frac.nearest (f : Frac) : Int :=
  (2 * f.num + f.den) / (2 * f.den)

/-- A fractional (relative) 2-D coordinate. -/
structure FracPoint where
  fx : Frac
  fy : Frac
deriving DecidableEq, Repr

/-- `batch_segment.py` lines 124–126: `relative_points[:, 0] /= w`,
`relative_points[:, 1] /= h` — per-axis division by the reference dimensions. -/
def toFractional (p : Point) (w h : Int) : FracPoint :=
  ⟨⟨p.x, w⟩, ⟨p.y, h⟩⟩

/-- `batch_segment.py` line 230:
`absolute_points = (relative_points * [w, h]).astype(int)` — multiply each
fractional component by the target dimension and truncate toward zero. -/
def toAbsolute (fp : FracPoint) (w h : Int) : Point :=
  ⟨(fp.fx.mulInt w).trunc, (fp.fy.mulInt h).trunc⟩

/-- Clamp `v` into `[lo, hi]`. -/
def clampTo (v lo hi : Int) : Int :=
  min (max v lo) hi

/-- Modelled from the spec's words, for comparison with `toAbsolute`:
"multiplies each fractional component by the corresponding target dimension
and rounds to the nearest integer pixel coordinate, clamped to
`[0, dimension-1]`". -/
def toAbsoluteSpec (fp : FracPoint) (w h : Int) : Point :=
  ⟨clampTo (fp.fx.mulInt w).nearest 0 (w - 1),
   clampTo (fp.fy.mulInt h).nearest 0 (h - 1)⟩

/-- A raw candidate mask returned by the model: a 2-D raster of raw values. -/
abbrev Mask := List (List Int)

/-- `batch_segment.py` line 239: `np.where(masks[0] > 0, 255, 0)`; equivalently
`single_segment.py` line 129: `(masks[0] > 0).astype(np.uint8) * 255`. -/
def thresholdPixel (v : Int) : Nat :=
  if 0 < v then 255 else 0

/-- Threshold a whole raw mask into a binary {0, 255} raster of the same shape. -/
def thresholdMask (m : Mask) : List (List Nat) :=
  m.map (fun row => row.map thresholdPixel)

/-! ## The interactive calibration session

`interactive_setup` in `batch_segment.py` (and the analogous loop of
`process_single_image` in `single_segment.py`) keeps three pieces of
mutable state: `click_points`, `click_labels` and `preview_mask`. -/

/-- The mutable state of the interactive loop. -/
structure Session where
  click_points : List Point
  click_labels : List Nat
  preview_mask : Option Mask
deriving DecidableEq, Repr

/-- The session at window creation: no clicks, no preview. -/
def initSession : Session :=
  ⟨[], [], none⟩

/-- One human input: a left click (positive, label 1), a right click
(negative, label 0), or one of the keys SPACE / R / ENTER / Q. -/
inductive Event where
  | addLeft (x y : Int)
  | addRight (x y : Int)
  | preview
  | reset
  | confirm
  | quit
deriving DecidableEq, Repr

/-- What the top of the interactive loop shows (lines 73–82 of
`batch_segment.py`): the preview overlay blended over the clicks when a
preview mask is present, the plain click display otherwise. -/
inductive Frame where
  | plain
  | overlay (m : Mask)
deriving DecidableEq, Repr

/-- The rendering decision of the loop top: `if preview_mask is not None`. -/
def displayFrame (s : Session) : Frame :=
  match s.preview_mask with
  | some m => .overlay m
  | none => .plain

/-- How one event of the batch tool's loop ends. -/
inductive Outcome where
  | cont (s : Session)
  | confirmed (relPoints : List FracPoint) (lbls : List Nat)
  | quitted
  | crash
deriving DecidableEq, Repr

/-- Result of one event: the outcome plus how many `predictor.predict`
calls were made while handling it. -/
structure StepResult where
  out : Outcome
  predictCalls : Nat
deriving DecidableEq, Repr

/-- One iteration of the `interactive_setup` loop of `batch_segment.py`,
given the predictor's behaviour `pr` (its list of candidate masks for the
current points and labels) and the reference image dimensions `w`, `h`.

* a click (`mouse_callback`) appends the point and its label and touches
  nothing else — in particular `preview_mask` is left as it is;
* SPACE with no points prints a message and continues; otherwise it calls
  `predict` once and stores `masks[0]` as the preview (indexing an empty
  candidate list fails);
* R clears points, labels and preview;
* ENTER with no points prints a message and continues; otherwise it divides
  the clicked points by `w`, `h` and returns them with the labels, making
  no `predict` call at all;
* Q exits. -/
def stepBatch (pr : List Point → List Nat → List Mask) (w h : Int)
    (s : Session) : Event → StepResult
  | .addLeft x y =>
    ⟨.cont ⟨s.click_points ++ [⟨x, y⟩], s.click_labels ++ [1], s.preview_mask⟩, 0⟩
  | .addRight x y =>
    ⟨.cont ⟨s.click_points ++ [⟨x, y⟩], s.click_labels ++ [0], s.preview_mask⟩, 0⟩
  | .preview =>
    if s.click_points.length = 0 then
      ⟨.cont s, 0⟩
    else
      match pr s.click_points s.click_labels with
      | [] => ⟨.crash, 1⟩
      | m :: _ => ⟨.cont ⟨s.click_points, s.click_labels, some m⟩, 1⟩
  | .reset => ⟨.cont ⟨[], [], none⟩, 0⟩
  | .confirm =>
    if s.click_points.length = 0 then
      ⟨.cont s, 0⟩
    else
      ⟨.confirmed (s.click_points.map (fun p => toFractional p w h)) s.click_labels, 0⟩
  | .quit => ⟨.quitted, 0⟩

/-- How one event of the single-image tool's loop ends. -/
inductive SOutcome where
  | cont (s : Session)
  | saved (mask : List (List Nat))
  | quitted
  | crash
deriving DecidableEq, Repr

/-- Result of one event of the single-image tool. -/
structure SStepResult where
  out : SOutcome
  predictCalls : Nat
deriving DecidableEq, Repr

/-- One iteration of the loop of `process_single_image` in
`single_segment.py`.  Clicks, SPACE and R behave as in the batch tool;
ENTER with points present makes a fresh `predict` call, thresholds its
first candidate and saves the binary mask. -/
def stepSingle (pr : List Point → List Nat → List Mask)
    (s : Session) : Event → SStepResult
  | .addLeft x y =>
    ⟨.cont ⟨s.click_points ++ [⟨x, y⟩], s.click_labels ++ [1], s.preview_mask⟩, 0⟩
  | .addRight x y =>
    ⟨.cont ⟨s.click_points ++ [⟨x, y⟩], s.click_labels ++ [0], s.preview_mask⟩, 0⟩
  | .preview =>
    if s.click_points.length = 0 then
      ⟨.cont s, 0⟩
    else
      match pr s.click_points s.click_labels with
      | [] => ⟨.crash, 1⟩
      | m :: _ => ⟨.cont ⟨s.click_points, s.click_labels, some m⟩, 1⟩
  | .reset => ⟨.cont ⟨[], [], none⟩, 0⟩
  | .confirm =>
    if s.click_points.length = 0 then
      ⟨.cont s, 0⟩
    else
      match pr s.click_points s.click_labels with
      | [] => ⟨.crash, 1⟩
      | m :: _ => ⟨.saved (thresholdMask m), 1⟩
  | .quit => ⟨.quitted, 0⟩

/-- Run a list of events through the batch tool's loop from state `s`,
returning the final state (`none` when the loop was left or failed before
consuming all events) and the total number of `predict` calls made. -/
def runSession (pr : List Point → List Nat → List Mask) (w h : Int) :
    Session → List Event → Option Session × Nat
  | s, [] => (some s, 0)
  | s, e :: es =>
    let r := stepBatch pr w h s e
    match r.out with
    | .cont s' =>
      let rest := runSession pr w h s' es
      (rest.1, r.predictCalls + rest.2)
    | _ => (none, r.predictCalls)

/-! ## Filenames and the batch loop

`process_images` in `batch_segment.py`: the input folder is the directory
of the chosen reference image; the batch set is every file of that folder
whose lowercased name ends in one of `.png .jpg .jpeg .tif .bmp`
(line 200); each file is loaded, its coordinates denormalized, `predict`
called, and — when at least one candidate comes back — the thresholded
first candidate written as `<stem>_mask.png`. -/

/-- Python `str.lower` on a filename. -/
def lowerStr (s : String) : String :=
  ⟨s.toList.map Char.toLower⟩

/-- Python `str.endswith(suffix)`. -/
def endsWithStr (s suffix : String) : Bool :=
  suffix.toList.isSuffixOf s.toList

/-- The extension tuple of line 200 of `batch_segment.py`:
`('.png', '.jpg', '.jpeg', '.tif', '.bmp')`. -/
def imageExts : List String :=
  [".png", ".jpg", ".jpeg", ".tif", ".bmp"]

/-- The list-comprehension filter of line 200:
`f.lower().endswith(('.png', '.jpg', '.jpeg', '.tif', '.bmp'))`. -/
def isBatchImage (f : String) : Bool :=
  imageExts.any (fun ext => endsWithStr (lowerStr f) ext)

/-- The extensions accepted by the reference-image chooser of
`get_setup_via_gui` (line 152): `"*.png *.jpg *.jpeg *.tif *.tiff *.bmp"`. -/
def chooserExts : List String :=
  [".png", ".jpg", ".jpeg", ".tif", ".tiff", ".bmp"]

/-- Whether the reference-image file dialog lists a given filename. -/
def chooserAccepts (f : String) : Bool :=
  chooserExts.any (fun ext => endsWithStr (lowerStr f) ext)

/-- `image_files = [f for f in os.listdir(INPUT_FOLDER) if ...]` (line 200):
the batch set is the extension-filtered folder listing, in listing order. -/
def batchFiles (folder : List String) : List String :=
  folder.filter isBatchImage

/-- `os.path.splitext(filename)[0]`: the name up to its last dot
(names here always carry an extension). -/
def splitextStem (s : String) : String :=
  let cs := s.toList
  if '.' ∈ cs then ⟨((cs.reverse.dropWhile (fun c => c != '.')).tail).reverse⟩ else s

/-- Line 240: `os.path.splitext(filename)[0] + "_mask.png"`. -/
def maskName (filename : String) : String :=
  splitextStem filename ++ "_mask.png"

/-- A target image: its dimensions plus an abstract content tag the
predictor may depend on. -/
structure Image where
  width : Int
  height : Int
  content : Nat
deriving DecidableEq, Repr

/-- A directory entry handed to the batch loop: its filename and what
`cv2.imread` yields for it (`none` models a file that fails to decode). -/
structure ImageFile where
  name : String
  data : Option Image
deriving DecidableEq, Repr

/-- What the batch loop does with one file. -/
inductive ItemResult where
  | loadFailed (name : String)
  | noCandidates (name : String)
  | emitted (outName : String) (mask : List (List Nat))
deriving DecidableEq, Repr

/-- One iteration of the batch loop (lines 214–242 of `batch_segment.py`):
load; on failure print "Could not load {filename}" and `continue`;
otherwise set the image, denormalize the points to this image's size, call
`predict`, and — only when `len(masks) > 0` — write the thresholded first
candidate to `<stem>_mask.png`. -/
def processOne (pr : Image → List Point → List Nat → List Mask)
    (relPts : List FracPoint) (lbls : List Nat) (file : ImageFile) : ItemResult :=
  match file.data with
  | none => .loadFailed file.name
  | some img =>
    match pr img (relPts.map (fun fp => toAbsolute fp img.width img.height)) lbls with
    | [] => .noCandidates file.name
    | m :: _ => .emitted (maskName file.name) (thresholdMask m)

/-- The whole batch loop: every file of the batch set, in the given order. -/
def runBatch (pr : Image → List Point → List Nat → List Mask)
    (relPts : List FracPoint) (lbls : List Nat) (files : List ImageFile) :
    List ItemResult :=
  files.map (processOne pr relPts lbls)

/-- The names of the mask files a batch run writes, in emission order. -/
def emittedNames (rs : List ItemResult) : List String :=
  rs.filterMap fun r =>
    match r with
    | .emitted n _ => some n
    | _ => none

/-! ## Concrete instances used in counterexamples and witnesses -/

/-- A one-pixel foreground raw mask. -/
def m0 : Mask := [[1]]

/-- A session predictor that always returns the single candidate `m0`. -/
def prConst : List Point → List Nat → List Mask := fun _ _ => [m0]

/-- A session predictor that returns no candidates. -/
def prNone : List Point → List Nat → List Mask := fun _ _ => []

/-- A 100×100 target image. -/
def img2 : Image := ⟨100, 100, 0⟩

/-- A batch predictor that always returns one candidate, `m0`. -/
def prOne : Image → List Point → List Nat → List Mask := fun _ _ _ => [m0]

/-- A batch predictor that never returns a candidate. -/
def prBNone : Image → List Point → List Nat → List Mask := fun _ _ _ => []

/-! ## Theorems -/

/-- With a nonzero reference dimension on each axis, converting a pixel
coordinate to a fraction of the image size and denormalizing back to the
same size recovers the pixel exactly: `(p.x * w).tdiv w = p.x`. -/
theorem toAbsolute_toFractional_exact (p : Point) (w h : Int)
    (hw : w ≠ 0) (hh : h ≠ 0) :
    toAbsolute (toFractional p w h) w h = p := by
  cases p with
  | mk x y =>
    simp [toAbsolute, toFractional, Frac.mulInt, Frac.trunc,
      Int.mul_tdiv_cancel _ hw, Int.mul_tdiv_cancel _ hh]

/-- C2: for every integer-coordinate point inside a `W × H` image with
`W > 0` and `H > 0`, converting to fractional coordinates and back to
absolute coordinates for the same dimensions moves the point by at most
one pixel per axis (in this exact model the round trip is lossless). -/
theorem C2_round_trip (p : Point) (W H : Int) (hW : 0 < W) (hH : 0 < H)
    (_hx0 : 0 ≤ p.x) (_hxW : p.x < W) (_hy0 : 0 ≤ p.y) (_hyH : p.y < H) :
    |(toAbsolute (toFractional p W H) W H).x - p.x| ≤ 1 ∧
    |(toAbsolute (toFractional p W H) W H).y - p.y| ≤ 1 := by
  rw [toAbsolute_toFractional_exact p W H hW.ne' hH.ne']
  simp

/-- Witness for `C2_round_trip` at `p = (3, 2)`, `W = 10`, `H = 5`. -/
theorem C2_round_trip_witness :
    0 < (10 : Int) ∧ 0 < (5 : Int) ∧
    0 ≤ (3 : Int) ∧ (3 : Int) < 10 ∧ 0 ≤ (2 : Int) ∧ (2 : Int) < 5 ∧
    (|(toAbsolute (toFractional ⟨3, 2⟩ 10 5) 10 5).x - 3| ≤ 1 ∧
     |(toAbsolute (toFractional ⟨3, 2⟩ 10 5) 10 5).y - 2| ≤ 1) :=
  ⟨by decide, by decide, by decide, by decide, by decide, by decide,
   C2_round_trip ⟨3, 2⟩ 10 5 (by decide) (by decide) (by decide) (by decide)
     (by decide) (by decide)⟩

/-- C1 fails on the code: after a successful Preview (the single `predict`
call below) a further click leaves the previously computed mask `m0` in
`preview_mask` — `mouse_callback` never clears it — and the loop top still
renders that stale mask, with no recomputation. -/
theorem C1_counterexample :
    runSession prConst 100 100 initSession
        [.addLeft 10 10, .preview, .addLeft 20 20] =
      (some ⟨[⟨10, 10⟩, ⟨20, 20⟩], [1, 1], some m0⟩, 1) ∧
    displayFrame ⟨[⟨10, 10⟩, ⟨20, 20⟩], [1, 1], some m0⟩ = .overlay m0 := by
  decide

/-- C1 amended: an AddPoint event appends the clicked point and its label
but does not invalidate the preview — the previously computed preview mask
stays current and the loop continues to display the same frame kind; only
Reset discards it (and only a new Preview replaces it). -/
theorem C1_amended (pr : List Point → List Nat → List Mask) (w h : Int)
    (s : Session) (x y : Int) :
    stepBatch pr w h s (.addLeft x y) =
      ⟨.cont ⟨s.click_points ++ [⟨x, y⟩], s.click_labels ++ [1], s.preview_mask⟩, 0⟩ ∧
    stepBatch pr w h s (.addRight x y) =
      ⟨.cont ⟨s.click_points ++ [⟨x, y⟩], s.click_labels ++ [0], s.preview_mask⟩, 0⟩ ∧
    displayFrame ⟨s.click_points ++ [⟨x, y⟩], s.click_labels ++ [1], s.preview_mask⟩ =
      displayFrame s ∧
    stepBatch pr w h s .reset = ⟨.cont ⟨[], [], none⟩, 0⟩ := by
  refine ⟨rfl, rfl, ?_, rfl⟩
  simp [displayFrame]

/-- C4: with an empty PromptSet, SPACE (Preview) and ENTER (Confirm) both
refuse in either tool: no `predict` call is made, no output is produced,
and the session state — in particular the empty point list — is unchanged. -/
theorem C4_empty_prompt_guard (prB prS : List Point → List Nat → List Mask)
    (w h : Int) (s : Session) (hs : s.click_points.length = 0) :
    stepBatch prB w h s .preview = ⟨.cont s, 0⟩ ∧
    stepBatch prB w h s .confirm = ⟨.cont s, 0⟩ ∧
    stepSingle prS s .preview = ⟨.cont s, 0⟩ ∧
    stepSingle prS s .confirm = ⟨.cont s, 0⟩ := by
  refine ⟨?_, ?_, ?_, ?_⟩ <;> simp [stepBatch, stepSingle, hs]

/-- Witness for `C4_empty_prompt_guard` at the initial session. -/
theorem C4_empty_prompt_guard_witness :
    initSession.click_points.length = 0 ∧
    (stepBatch prConst 100 100 initSession .preview = ⟨.cont initSession, 0⟩ ∧
     stepBatch prConst 100 100 initSession .confirm = ⟨.cont initSession, 0⟩ ∧
     stepSingle prConst initSession .preview = ⟨.cont initSession, 0⟩ ∧
     stepSingle prConst initSession .confirm = ⟨.cont initSession, 0⟩) :=
  ⟨by decide, C4_empty_prompt_guard prConst prConst 100 100 initSession (by decide)⟩

/-- Characterization of the denormalization of one axis: for a fractional
value `num/den` in `[0, 1]` (with `den > 0`) and a positive dimension `W`,
the truncation `(num * W).tdiv den` is the floor division `num * W / den`,
lies in `[0, W]`, and reaches `W` exactly when the fraction equals one. -/
theorem Frac.trunc_mulInt_char (f : Frac) (W : Int) (hW : 0 < W)
    (hd : 0 < f.den) (h0 : 0 ≤ f.num) (h1 : f.num ≤ f.den) :
    (f.mulInt W).trunc = f.num * W / f.den ∧
    0 ≤ (f.mulInt W).trunc ∧
    (f.mulInt W).trunc ≤ W ∧
    ((f.mulInt W).trunc = W ↔ f.num = f.den) := by
  have hnum : 0 ≤ f.num * W := mul_nonneg h0 hW.le
  have heq : (f.mulInt W).trunc = f.num * W / f.den := by
    simp [Frac.mulInt, Frac.trunc, Int.tdiv_eq_ediv hnum hd.le]
  have hle : f.num * W ≤ f.den * W := mul_le_mul_of_nonneg_right h1 hW.le
  have hWeq : f.den * W / f.den = W := Int.mul_ediv_cancel_left W hd.ne'
  have hub : f.num * W / f.den ≤ W := by
    calc f.num * W / f.den ≤ f.den * W / f.den := Int.ediv_le_ediv hd hle
    _ = W := hWeq
  refine ⟨heq, ?_, ?_, ?_⟩
  · rw [heq]
    exact Int.ediv_nonneg hnum hd.le
  · rw [heq]
    exact hub
  · rw [heq]
    constructor
    · intro hEq
      have hge : W ≤ f.num * W / f.den := le_of_eq hEq.symm
      have hmul : W * f.den ≤ f.num * W := (Int.le_ediv_iff_mul_le hd).mp hge
      have hmul' : f.den * W ≤ f.num * W := by linarith
      have hge2 : f.den ≤ f.num := le_of_mul_le_mul_right hmul' hW
      omega
    · intro hEq
      rw [hEq]
      exact hWeq

/-- C3 fails on the code: the denormalization neither rounds to nearest
nor clamps.  At the fractional point `(1.0, 0.6)` and target dimensions
`(10, 3)` the code truncates to `(10, 1)` — `10` is outside `[0, 9]` and
`1` is not the nearest integer to `1.8` — while the spec's
round-and-clamp description yields `(9, 2)`. -/
theorem C3_counterexample :
    toAbsolute ⟨⟨1, 1⟩, ⟨3, 5⟩⟩ 10 3 = ⟨10, 1⟩ ∧
    toAbsoluteSpec ⟨⟨1, 1⟩, ⟨3, 5⟩⟩ 10 3 = ⟨9, 2⟩ ∧
    toAbsolute ⟨⟨1, 1⟩, ⟨3, 5⟩⟩ 10 3 ≠ toAbsoluteSpec ⟨⟨1, 1⟩, ⟨3, 5⟩⟩ 10 3 := by
  decide

/-- C3 amended: the denormalization multiplies each fractional component
by the corresponding target dimension and truncates toward zero — floor
division for the nonnegative fractional range — without clamping: over
fractional values in `[0, 1]` the result lies in `[0, dimension]`, and it
equals `dimension` (one past the last pixel) exactly for fraction one. -/
theorem C3_truncation (fp : FracPoint) (W H : Int) (hW : 0 < W) (hH : 0 < H)
    (hxd : 0 < fp.fx.den) (hx0 : 0 ≤ fp.fx.num) (hx1 : fp.fx.num ≤ fp.fx.den)
    (hyd : 0 < fp.fy.den) (hy0 : 0 ≤ fp.fy.num) (hy1 : fp.fy.num ≤ fp.fy.den) :
    ((toAbsolute fp W H).x = fp.fx.num * W / fp.fx.den ∧
     0 ≤ (toAbsolute fp W H).x ∧ (toAbsolute fp W H).x ≤ W ∧
     ((toAbsolute fp W H).x = W ↔ fp.fx.num = fp.fx.den)) ∧
    ((toAbsolute fp W H).y = fp.fy.num * H / fp.fy.den ∧
     0 ≤ (toAbsolute fp W H).y ∧ (toAbsolute fp W H).y ≤ H ∧
     ((toAbsolute fp W H).y = H ↔ fp.fy.num = fp.fy.den)) :=
  ⟨Frac.trunc_mulInt_char fp.fx W hW hxd hx0 hx1,
   Frac.trunc_mulInt_char fp.fy H hH hyd hy0 hy1⟩

/-- Witness for `C3_truncation` at the fractional point `(0.5, 0.5)` and
target dimensions `(10, 4)`. -/
theorem C3_truncation_witness :
    0 < (10 : Int) ∧ 0 < (4 : Int) ∧
    ((0 : Int) < 2 ∧ (0 : Int) ≤ 1 ∧ (1 : Int) ≤ 2) ∧
    (((toAbsolute ⟨⟨1, 2⟩, ⟨1, 2⟩⟩ 10 4).x = 1 * 10 / 2 ∧
      0 ≤ (toAbsolute ⟨⟨1, 2⟩, ⟨1, 2⟩⟩ 10 4).x ∧
      (toAbsolute ⟨⟨1, 2⟩, ⟨1, 2⟩⟩ 10 4).x ≤ 10 ∧
      ((toAbsolute ⟨⟨1, 2⟩, ⟨1, 2⟩⟩ 10 4).x = 10 ↔ (1 : Int) = 2)) ∧
     ((toAbsolute ⟨⟨1, 2⟩, ⟨1, 2⟩⟩ 10 4).y = 1 * 4 / 2 ∧
      0 ≤ (toAbsolute ⟨⟨1, 2⟩, ⟨1, 2⟩⟩ 10 4).y ∧
      (toAbsolute ⟨⟨1, 2⟩, ⟨1, 2⟩⟩ 10 4).y ≤ 4 ∧
      ((toAbsolute ⟨⟨1, 2⟩, ⟨1, 2⟩⟩ 10 4).y = 4 ↔ (1 : Int) = 2))) :=
  ⟨by decide, by decide, ⟨by decide, by decide, by decide⟩,
   C3_truncation ⟨⟨1, 2⟩, ⟨1, 2⟩⟩ 10 4 (by decide) (by decide) (by decide)
     (by decide) (by decide) (by decide) (by decide) (by decide)⟩

/-- C5 fails on the code: in the batch tool, ENTER (Confirm) on a session
with one point succeeds — it produces the fractional PromptSet — while
making zero `predict` calls; the model is not invoked by Confirm there. -/
theorem C5_counterexample :
    stepBatch prConst 100 100 ⟨[⟨5, 5⟩], [1], none⟩ .confirm =
      ⟨.confirmed [⟨⟨5, 100⟩, ⟨5, 100⟩⟩] [1], 0⟩ ∧
    (stepBatch prConst 100 100 ⟨[⟨5, 5⟩], [1], none⟩ .confirm).predictCalls = 0 := by
  decide

/-- C5 amended: Preview invokes the model exactly once whenever the
PromptSet is nonempty (in both tools); Confirm invokes it once in the
single-image tool but never in the batch tool, where it only converts
coordinates; AddPoint and Reset never invoke the model. -/
theorem C5_model_calls (prB prS : List Point → List Nat → List Mask)
    (w h : Int) (s : Session) (x y : Int) :
    (stepBatch prB w h s .preview).predictCalls =
      (if s.click_points.length = 0 then 0 else 1) ∧
    (stepBatch prB w h s .confirm).predictCalls = 0 ∧
    (stepBatch prB w h s (.addLeft x y)).predictCalls = 0 ∧
    (stepBatch prB w h s (.addRight x y)).predictCalls = 0 ∧
    (stepBatch prB w h s .reset).predictCalls = 0 ∧
    (stepSingle prS s .preview).predictCalls =
      (if s.click_points.length = 0 then 0 else 1) ∧
    (stepSingle prS s .confirm).predictCalls =
      (if s.click_points.length = 0 then 0 else 1) ∧
    (stepSingle prS s (.addLeft x y)).predictCalls = 0 ∧
    (stepSingle prS s (.addRight x y)).predictCalls = 0 ∧
    (stepSingle prS s .reset).predictCalls = 0 := by
  by_cases hs : s.click_points.length = 0 <;>
    refine ⟨?_, ?_, ?_, ?_, ?_, ?_, ?_, ?_, ?_, ?_⟩ <;>
      simp only [stepBatch, stepSingle, hs, if_true, if_false, ite_true, ite_false] <;>
      first
      | rfl
      | (cases prB s.click_points s.click_labels <;> rfl)
      | (cases prS s.click_points s.click_labels <;> rfl)

/-- For any index, thresholding commutes with row lookup (the default row
is empty on both sides). -/
theorem thresholdMask_getD (m : Mask) (i : Nat) :
    (thresholdMask m).getD i [] = (m.getD i []).map thresholdPixel := by
  rw [List.getD_eq_getElem?_getD, List.getD_eq_getElem?_getD]
  rw [show thresholdMask m = m.map (fun row => row.map thresholdPixel) from rfl]
  rw [List.getElem?_map]
  cases m[i]? <;> simp

/-- For any index, thresholding commutes with pixel lookup (the default
raw value 0 thresholds to the default binary value 0). -/
theorem thresholdRow_getD (row : List Int) (j : Nat) :
    (row.map thresholdPixel).getD j 0 = thresholdPixel (row.getD j 0) := by
  rw [List.getD_eq_getElem?_getD, List.getD_eq_getElem?_getD, List.getElem?_map]
  cases row[j]? <;> simp [thresholdPixel]

/-- C6: thresholding preserves the raster's dimensions; a pixel of the
output is 255 exactly when the raw value is strictly positive and 0
exactly when it is not; and the raw row `[-1, 0, 1, 5]` maps to
`[0, 0, 255, 255]`. -/
theorem C6_thresholding (m : Mask) (i j : Nat) :
    (thresholdMask m).length = m.length ∧
    ((thresholdMask m).getD i []).length = (m.getD i []).length ∧
    (((thresholdMask m).getD i []).getD j 0 = 255 ↔ 0 < (m.getD i []).getD j 0) ∧
    (((thresholdMask m).getD i []).getD j 0 = 0 ↔ (m.getD i []).getD j 0 ≤ 0) ∧
    thresholdMask [[-1, 0, 1, 5]] = [[0, 0, 255, 255]] := by
  refine ⟨by simp [thresholdMask], ?_, ?_, ?_, by decide⟩
  · rw [thresholdMask_getD]
    simp
  · rw [thresholdMask_getD, thresholdRow_getD]
    unfold thresholdPixel
    split <;> omega
  · rw [thresholdMask_getD, thresholdRow_getD]
    unfold thresholdPixel
    split <;> omega

/-- C7: a target image that fails to decode is skipped with a diagnostic
naming it — `⚠️ Could not load {filename}` followed by `continue` — and
every image after it is still processed in the given order; concretely,
with three images whose second is unreadable, masks are emitted for the
first and the third. -/
theorem C7_load_failure_isolated (pr : Image → List Point → List Nat → List Mask)
    (relPts : List FracPoint) (lbls : List Nat)
    (pre post : List ImageFile) (nm : String) :
    runBatch pr relPts lbls (pre ++ ⟨nm, none⟩ :: post) =
      runBatch pr relPts lbls pre ++ .loadFailed nm :: runBatch pr relPts lbls post ∧
    emittedNames (runBatch prOne [⟨⟨1, 2⟩, ⟨1, 2⟩⟩] [1]
        [⟨"a.png", some img2⟩, ⟨"b.png", none⟩, ⟨"c.png", some img2⟩]) =
      ["a_mask.png", "c_mask.png"] := by
  constructor
  · simp [runBatch, processOne]
  · decide

/-- C8 fails on the code: in the calibration session, SPACE (Preview) on a
nonempty PromptSet with a predictor that returns zero candidates does not
leave the session collecting — `masks[0]` is indexed unconditionally, and
the step fails after its single `predict` call. -/
theorem C8_counterexample :
    stepBatch prNone 100 100 ⟨[⟨5, 5⟩], [1], none⟩ .preview = ⟨.crash, 1⟩ := by
  decide

/-- C8 amended: in the batch loop a `predict` call that returns zero
candidates is fatal only for that image — nothing is emitted for it (the
`len(masks) > 0` guard) and every remaining image is still processed —
while in the calibration session's Preview the zero-candidate case is
unhandled: the unconditional `masks[0]` indexing fails instead of leaving
the session collecting. -/
theorem C8_no_candidates (prB : Image → List Point → List Nat → List Mask)
    (relPts : List FracPoint) (lbls : List Nat) (pre post : List ImageFile)
    (nm : String) (img : Image)
    (hB : prB img (relPts.map (fun fp => toAbsolute fp img.width img.height)) lbls = [])
    (prS : List Point → List Nat → List Mask) (w h : Int) (s : Session)
    (hs : ¬ s.click_points.length = 0)
    (hS : prS s.click_points s.click_labels = []) :
    runBatch prB relPts lbls (pre ++ ⟨nm, some img⟩ :: post) =
      runBatch prB relPts lbls pre ++ .noCandidates nm :: runBatch prB relPts lbls post ∧
    stepBatch prS w h s .preview = ⟨.crash, 1⟩ := by
  constructor
  · simp [runBatch, processOne, hB]
  · simp [stepBatch, hs, hS]

/-- Witness for `C8_no_candidates`: the candidate-free predictors on a
100×100 image and a one-point session. -/
theorem C8_no_candidates_witness :
    prBNone img2 ([⟨⟨1, 2⟩, ⟨1, 2⟩⟩].map
        (fun fp => toAbsolute fp img2.width img2.height)) [1] = [] ∧
    ¬ (Session.mk [⟨5, 5⟩] [1] none).click_points.length = 0 ∧
    prNone (Session.mk [⟨5, 5⟩] [1] none).click_points
      (Session.mk [⟨5, 5⟩] [1] none).click_labels = [] ∧
    (runBatch prBNone [⟨⟨1, 2⟩, ⟨1, 2⟩⟩] [1] ([] ++ ⟨"a.png", some img2⟩ :: []) =
       runBatch prBNone [⟨⟨1, 2⟩, ⟨1, 2⟩⟩] [1] [] ++
         .noCandidates "a.png" :: runBatch prBNone [⟨⟨1, 2⟩, ⟨1, 2⟩⟩] [1] [] ∧
     stepBatch prNone 100 100 ⟨[⟨5, 5⟩], [1], none⟩ .preview = ⟨.crash, 1⟩) :=
  ⟨rfl, by decide, rfl,
   C8_no_candidates prBNone [⟨⟨1, 2⟩, ⟨1, 2⟩⟩] [1] [] [] "a.png" img2 rfl
     prNone 100 100 ⟨[⟨5, 5⟩], [1], none⟩ (by decide) rfl⟩

/-- C9: the code contradicts its own file chooser.  The reference-image
dialog accepts `*.tiff`, but the batch filter of line 200 checks only
`('.png', '.jpg', '.jpeg', '.tif', '.bmp')`, so a `.tiff` file in the
input folder is silently left out of the batch. -/
theorem C9_tiff_gap :
    isBatchImage "wing.tiff" = false ∧
    chooserAccepts "wing.tiff" = true ∧
    isBatchImage "wing.tif" = true ∧
    isBatchImage "wing.png" = true ∧
    batchFiles ["wing.tiff", "wing.png"] = ["wing.png"] := by
  decide

/-- C10 fails on the code: the batch set is the extension-filtered folder
listing, not the whole folder, so a `.tiff` reference image is not a
member of its own batch — a completed run over its folder emits no
`ref_mask.png` even though every listed image loads and yields a mask. -/
theorem C10_counterexample :
    batchFiles ["ref.tiff", "a.png"] = ["a.png"] ∧
    "ref.tiff" ∉ batchFiles ["ref.tiff", "a.png"] ∧
    emittedNames (runBatch prOne [⟨⟨1, 2⟩, ⟨1, 2⟩⟩] [1]
        ((batchFiles ["ref.tiff", "a.png"]).map (fun n => ⟨n, some img2⟩))) =
      ["a_mask.png"] ∧
    maskName "ref.tiff" ∉ emittedNames (runBatch prOne [⟨⟨1, 2⟩, ⟨1, 2⟩⟩] [1]
        ((batchFiles ["ref.tiff", "a.png"]).map (fun n => ⟨n, some img2⟩))) := by
  decide

/-- C10 amended: the batch set is the extension-filtered listing of the
reference image's directory, so the reference is a member of the batch if
and only if its filename passes the filter of line 200; when it does pass
(and it loads and the model yields a candidate) its mask is emitted like
any other image's. -/
theorem C10_reference_in_batch (folder : List String) (template : String)
    (hmem : template ∈ folder)
    (pr : Image → List Point → List Nat → List Mask)
    (relPts : List FracPoint) (lbls : List Nat) (load : String → Image)
    (hpr : pr (load template)
      (relPts.map (fun fp =>
        toAbsolute fp (load template).width (load template).height)) lbls ≠ []) :
    (template ∈ batchFiles folder ↔ isBatchImage template = true) ∧
    (isBatchImage template = true →
      maskName template ∈ emittedNames (runBatch pr relPts lbls
        ((batchFiles folder).map (fun n => ⟨n, some (load n)⟩)))) := by
  constructor
  · simp [batchFiles, List.mem_filter, hmem]
  · intro hT
    have h1 : template ∈ batchFiles folder := by
      simp [batchFiles, List.mem_filter, hmem, hT]
    have h2 : (⟨template, some (load template)⟩ : ImageFile) ∈
        (batchFiles folder).map (fun n => (⟨n, some (load n)⟩ : ImageFile)) :=
      List.mem_map_of_mem _ h1
    obtain ⟨m, ms, hms⟩ := List.exists_cons_of_ne_nil hpr
    have h3 : processOne pr relPts lbls ⟨template, some (load template)⟩ =
        .emitted (maskName template) (thresholdMask m) := by
      simp [processOne, hms]
    have h4 : ItemResult.emitted (maskName template) (thresholdMask m) ∈
        runBatch pr relPts lbls
          ((batchFiles folder).map (fun n => ⟨n, some (load n)⟩)) :=
      h3 ▸ List.mem_map_of_mem _ h2
    exact List.mem_filterMap.mpr ⟨_, h4, rfl⟩

/-- Witness for `C10_reference_in_batch`: a one-file folder whose only
member is also the chosen reference image. -/
theorem C10_reference_in_batch_witness :
    "a.png" ∈ ["a.png"] ∧
    prOne (img2)
      ([⟨⟨1, 2⟩, ⟨1, 2⟩⟩].map
        (fun fp => toAbsolute fp img2.width img2.height)) [1] ≠ [] ∧
    (("a.png" ∈ batchFiles ["a.png"] ↔ isBatchImage "a.png" = true) ∧
     (isBatchImage "a.png" = true →
       maskName "a.png" ∈ emittedNames (runBatch prOne [⟨⟨1, 2⟩, ⟨1, 2⟩⟩] [1]
         ((batchFiles ["a.png"]).map (fun n => ⟨n, some img2⟩))))) :=
  ⟨by decide, by decide,
   C10_reference_in_batch ["a.png"] "a.png" (by decide) prOne
     [⟨⟨1, 2⟩, ⟨1, 2⟩⟩] [1] (fun _ => img2) (by decide)⟩

end FlyWing
